import Mathlib

/-!
Verification of the mcp-server-tauri realtime bridge
(`packages/tauri-plugin-mcp-bridge`): a shallow embedding of the
WebSocket dispatch loop, the window-resolution policy, the script
registry, the IPC monitor, and the screenshot rendering pipeline,
with theorems settling the specification claims.

External collaborators (Tauri window handles, `window.eval`, platform
pixel capture, image codecs, the system clock) are modelled as oracle
fields of an environment record; all control flow, parsing and response
construction is translated from the Rust source.
-/

namespace McpBridge

/-! ### JSON values (model of `serde_json::Value`)

Numbers are modelled as exact rationals (`serde_json` stores `u64`,
`i64` or `f64`; none of the verified claims depends on float rounding
of JSON numbers). Objects are association lists; `serde_json` maps have
unique keys, and lookup returns the value of the first matching key. -/

inductive Json where
  | null : Json
  | bool : Bool → Json
  | num : ℚ → Json
  | str : String → Json
  | arr : List Json → Json
  | obj : List (String × Json) → Json

/-- `serde_json::Value::get(key)`: field lookup, `None` on non-objects. -/
def Json.get (j : Json) (key : String) : Option Json :=
  match j with
  | .obj fields => (fields.find? (fun p => p.1 == key)).map (·.2)
  | _ => none

/-- `serde_json::Value::as_str`. -/
def Json.asStr : Json → Option String
  | .str s => some s
  | _ => none

/-- `serde_json::Value::as_bool`. -/
def Json.asBool : Json → Option Bool
  | .bool b => some b
  | _ => none

/-- `serde_json::Value::as_u64`: integral, non-negative numbers only. -/
def Json.asU64 : Json → Option ℕ
  | .num q => if q.den = 1 ∧ 0 ≤ q.num then some q.num.toNat else none
  | _ => none

/-! ### Window resolution (spec-modelled)

The file `commands/mod.rs` holding `resolve_window_with_context` and
`resolve_window` is not part of the provided sources; only its callers
in `websocket.rs` are. The definitions below are modelled from the
spec, section 4.2. -/

/-- `WindowContext` from the data model: which target a window-scoped
operation ran against. -/
structure WindowContext where
  windowLabel : String
  totalWindows : ℕ
  warning : Option String
deriving DecidableEq

/-- A resolved window: the selected target (identified by its label)
together with the `WindowContext` describing the resolution. -/
structure ResolvedWindow where
  label : String
  context : WindowContext
deriving DecidableEq

/-- Modelled from the spec: `commands::resolve_window_with_context`
(`commands/mod.rs` is missing from the source tree). Five-branch policy
of spec section 4.2: a given label selects the matching target or fails
with a target-not-found error; with no label, one target is selected
silently, several targets select the first enumerated one with a
`warning` describing the ambiguity among N candidates, and zero targets
fail; `totalWindows` is the live target count in every branch. -/
def resolve_window_with_context (windows : List String) (label : Option String) :
    Except String ResolvedWindow :=
  match label with
  | some l =>
    if windows.contains l then
      .ok ⟨l, ⟨l, windows.length, none⟩⟩
    else
      .error ("Window not found: " ++ l)
  | none =>
    match windows with
    | [] => .error "No windows available"
    | [w] => .ok ⟨w, ⟨w, 1, none⟩⟩
    | w :: _ :: _ =>
      .ok ⟨w, ⟨w, windows.length,
        some ("Multiple windows (" ++ toString windows.length ++
          ") available; using window " ++ w)⟩⟩

/-- Modelled from the spec: `commands::resolve_window`, the variant of
window resolution that returns only the selected target. -/
def resolve_window (windows : List String) (label : Option String) :
    Except String String :=
  (resolve_window_with_context windows label).map ResolvedWindow.label

/-! ### Script registry (spec-modelled store, handlers from source)

`script_registry.rs` is not part of the provided sources; the store is
modelled from the spec, section 4.3 (`ScriptEntry`, insertion-ordered
map, upsert moving the entry to the end, remove-if-present, clear). -/

/-- `ScriptType` from `script_registry.rs` as used in `websocket.rs`. -/
inductive ScriptType where
  | inline : ScriptType
  | url : ScriptType
deriving DecidableEq

/-- `ScriptEntry`: id (unique key), type, content. -/
structure ScriptEntry where
  id : String
  scriptType : ScriptType
  content : String
deriving DecidableEq

/-- Modelled from the spec: the insertion-ordered script registry
(`script_registry.rs` is missing from the source tree). -/
def Registry : Type := List ScriptEntry

/-- Modelled from the spec: `Registry::add` upserts by id; the spec
allows the overwritten entry to move to the end (last-write-wins). -/
def Registry.add (r : Registry) (e : ScriptEntry) : Registry :=
  (List.filter (fun x => x.id != e.id) r) ++ [e]

/-- Modelled from the spec: `Registry::remove` deletes the entry with
the given id if present and returns it (`Option`). -/
def Registry.remove (r : Registry) (i : String) :
    Option ScriptEntry × Registry :=
  (List.find? (fun x => x.id == i) r, List.filter (fun x => x.id != i) r)

/-- Modelled from the spec: `Registry::clear`. -/
def Registry.clear (_ : Registry) : Registry := []

/-- Modelled from the spec: `Registry::len`. -/
def Registry.len (r : Registry) : ℕ := List.length r

/-- Modelled from the spec: `Registry::get_all`, entries in insertion
order. -/
def Registry.get_all (r : Registry) : List ScriptEntry := r

/-! ### IPC monitor (spec-modelled state, commands from source)

The state type `IPCMonitorState` lives in `monitor.rs`, which is not
part of the provided sources; the state machine is modelled from the
spec, section 4.4. The four command functions below it are translated
from `commands/ipc_monitor.rs`. Mutex acquisition is modelled as always
succeeding (lock poisoning is a concurrency failure outside the
embedding); `window.eval` side hooks return no data and are dropped by
the source (`let _ = ...`), so they do not appear. -/

/-- `IPCEvent` from the data model. `timestamp` and `durationMs` are
`f64` in the source; they are carried opaquely as rationals. -/
structure IPCEvent where
  timestamp : ℚ
  command : String
  args : Json
  result : Option Json
  error : Option String
  durationMs : Option ℚ

/-- Modelled from the spec: the monitor state (`monitor.rs` is missing
from the source tree): an enabled flag and the append-only captured
event sequence. -/
structure Monitor where
  enabled : Bool
  events : List IPCEvent

/-- Modelled from the spec: `start()` clears all prior events and
enables capture. -/
def Monitor.start (_ : Monitor) : Monitor := ⟨true, []⟩

/-- Modelled from the spec: `stop()` disables capture and retains the
captured events. -/
def Monitor.stop (m : Monitor) : Monitor := ⟨false, m.events⟩

/-- Modelled from the spec: `add_event` appends only while enabled and
is a silent no-op while stopped. -/
def Monitor.addEvent (m : Monitor) (e : IPCEvent) : Monitor :=
  if m.enabled then ⟨m.enabled, m.events ++ [e]⟩ else m

/-- Modelled from the spec: `get_events` returns the full captured
sequence regardless of state. -/
def Monitor.getEvents (m : Monitor) : List IPCEvent := m.events

/-- `str::contains` (substring containment), as used by the self-filter
in `report_ipc_event`. -/
def containsSubstr (haystack needle : String) : Bool :=
  decide (needle.data <:+: haystack.data)

/-- `start_ipc_monitor` (commands/ipc_monitor.rs): locks the monitor,
starts it, fires the JS-side hook (result dropped), returns a success
message. -/
def start_ipc_monitor (m : Monitor) : Monitor × Except String String :=
  (m.start, .ok "IPC monitoring started")

/-- `stop_ipc_monitor` (commands/ipc_monitor.rs): fires the JS-side
hook (result dropped), locks the monitor, stops it. -/
def stop_ipc_monitor (m : Monitor) : Monitor × Except String String :=
  (m.stop, .ok "IPC monitoring stopped")

/-- `get_ipc_events` (commands/ipc_monitor.rs): returns the captured
events. -/
def get_ipc_events (m : Monitor) : Except String (List IPCEvent) :=
  .ok m.getEvents

/-- `report_ipc_event` (commands/ipc_monitor.rs): drops any report
whose command name contains one of the four monitor control command
names, then records the event. `now` models `current_timestamp()`. -/
def report_ipc_event (now : ℚ) (m : Monitor) (command : String)
    (args : Json) (result : Option Json) (error : Option String)
    (durationMs : Option ℚ) : Monitor × Except String Unit :=
  if containsSubstr command "report_ipc_event"
      || containsSubstr command "start_ipc_monitor"
      || containsSubstr command "stop_ipc_monitor"
      || containsSubstr command "get_ipc_events" then
    (m, .ok ())
  else
    (m.addEvent ⟨now, command, args, result, error, durationMs⟩, .ok ())

/-! ### Screenshot rendering pipeline (`screenshot/mod.rs`)

Raw image bytes are byte lists; the external `image` crate codecs
(decode, PNG/JPEG encode) and base64 are oracle fields of a `Codec`
record. The geometry of `DynamicImage::resize` — the piece the claims
are about — is embedded exactly: `resize` scales to the largest size
that fits within the requested bounds preserving aspect ratio, via the
crate's `resize_dimensions`. Its `f64` arithmetic is modelled as exact
rational arithmetic with round-half-away-from-zero (all quantities
involved are non-negative, where this agrees with `f64::round`). -/

/-- Raw image bytes. -/
def Bytes : Type := List ℕ

/-- Image pixel dimensions (the pixel content is irrelevant to the
claims; codecs carry it through the oracle). -/
structure Img where
  width : ℕ
  height : ℕ
deriving DecidableEq

/-- Oracle for the external image codecs and base64 used by
`screenshot/mod.rs`. `decode` models `image::load_from_memory`,
`decodePng` models `image::load_from_memory_with_format(_, Png)`. -/
structure Codec where
  decode : Bytes → Except String Img
  decodePng : Bytes → Except String Img
  encodePng : Img → Except String Bytes
  encodeJpeg : Img → ℕ → Except String Bytes
  base64 : Bytes → String

/-- `ScreenshotError` (screenshot/mod.rs). -/
inductive ScreenshotError where
  | platformUnsupported : ScreenshotError
  | captureFailed : String → ScreenshotError
  | encodeFailed : String → ScreenshotError
  | resizeFailed : String → ScreenshotError
  | timeout : ScreenshotError
deriving DecidableEq

/-- The `thiserror` display strings of `ScreenshotError`. -/
def ScreenshotError.toMessage : ScreenshotError → String
  | .platformUnsupported => "Platform not supported"
  | .captureFailed s => "Webview capture failed: " ++ s
  | .encodeFailed s => "Encoding failed: " ++ s
  | .resizeFailed s => "Resize failed: " ++ s
  | .timeout => "Timeout exceeded"

/-- `u32::MAX`. -/
def U32MAX : ℕ := 4294967295

/-- `f64::round` applied to the non-negative exact rational `p / q` of
the resize geometry: round half away from zero, written with integer
division as `⌊p / q + 1 / 2⌋ = (2p + q) / (2q)`. -/
def roundDiv (p q : ℕ) : ℕ := (2 * p + q) / (2 * q)

/-- `image::math::resize_dimensions(width, height, nwidth, nheight,
fill = false)` from the external `image` crate, the geometry behind
`DynamicImage::resize`: the largest dimensions fitting within
`nwidth × nheight` that preserve the aspect ratio, clamped to
`u32::MAX`. The crate computes `ratio = min(nwidth / width,
nheight / height)` and rounds `width·ratio` and `height·ratio` in
`f64`; this embedding carries the same quantities as exact rationals
(numerator over denominator, the minimum decided by
cross-multiplication), on which `f64::round` is `roundDiv`. Zero input
dimensions are outside the modelled domain. -/
def resize_dimensions (width height nwidth nheight : ℕ) : ℕ × ℕ :=
  let useW : Bool := decide (nwidth * height ≤ nheight * width)
  let nw : ℕ :=
    max (if useW then roundDiv (width * nwidth) width
         else roundDiv (width * nheight) height) 1
  let nh : ℕ :=
    max (if useW then roundDiv (height * nwidth) width
         else roundDiv (height * nheight) height) 1
  if U32MAX < nw then
    (U32MAX, max (roundDiv (height * U32MAX) width) 1)
  else if U32MAX < nh then
    (max (roundDiv (width * U32MAX) height) 1, U32MAX)
  else
    (nw, nh)

/-- `DynamicImage::resize(nwidth, nheight, filter)` (external `image`
crate): dimensions of the returned image. The resampling filter
(Lanczos3 in the source) affects pixel content only. -/
def dynResize (img : Img) (nwidth nheight : ℕ) : Img :=
  let p := resize_dimensions img.width img.height nwidth nheight
  ⟨p.1, p.2⟩

/-- `get_effective_max_width` (screenshot/mod.rs): explicit parameter,
then the `TAURI_MCP_SCREENSHOT_MAX_WIDTH` environment value (an oracle
input, already parsed), then none. -/
def get_effective_max_width (param envVar : Option ℕ) : Option ℕ :=
  match param with
  | some p => some p
  | none => envVar

/-- `resize_if_needed` (screenshot/mod.rs): decode; return the original
bytes unchanged when the width does not exceed `max_width` (never
upscale); otherwise resize to `(max_width, round(height·max_width/width))`
via `DynamicImage::resize` and re-encode as JPEG with the given quality
when `format == "jpeg"`, else as PNG. -/
def resize_if_needed (o : Codec) (data : Bytes) (max_width : ℕ)
    (format : String) (quality : ℕ) : Except ScreenshotError Bytes :=
  match o.decode data with
  | .error e => .error (.resizeFailed ("Failed to decode image: " ++ e))
  | .ok img =>
    if img.width ≤ max_width then
      .ok data
    else
      let new_height : ℕ := roundDiv (img.height * max_width) img.width
      let resized := dynResize img max_width new_height
      if format == "jpeg" then
        match o.encodeJpeg resized quality with
        | .ok buf => .ok buf
        | .error e => .error (.resizeFailed ("Failed to encode JPEG: " ++ e))
      else
        match o.encodePng resized with
        | .ok buf => .ok buf
        | .error e => .error (.resizeFailed ("Failed to encode PNG: " ++ e))

/-- `is_jpeg` (screenshot/mod.rs): JPEG magic bytes `FF D8`. -/
def is_jpeg (data : Bytes) : Bool :=
  match data with
  | a :: b :: _ => a == 255 && b == 216
  | _ => false

/-- `convert_png_to_jpeg` (screenshot/mod.rs). -/
def convert_png_to_jpeg (o : Codec) (png_data : Bytes) (quality : ℕ) :
    Except ScreenshotError Bytes :=
  match o.decodePng png_data with
  | .error e => .error (.encodeFailed ("Failed to decode PNG: " ++ e))
  | .ok img =>
    match o.encodeJpeg img quality with
    | .ok buf => .ok buf
    | .error e => .error (.encodeFailed ("Failed to encode JPEG: " ++ e))

/-- `capture_viewport_screenshot` (screenshot/mod.rs): platform capture
(PNG bytes, an oracle outcome), optional resize under the effective max
width, format conversion decided by magic bytes (a failed PNG→JPEG
conversion falls back to the PNG bytes), then a base64 data URL. -/
def capture_viewport_screenshot (o : Codec)
    (platformCapture : Except ScreenshotError Bytes)
    (envMaxWidth : Option ℕ) (format : String) (quality : ℕ)
    (max_width : Option ℕ) : Except ScreenshotError String :=
  match platformCapture with
  | .error e => .error e
  | .ok shot =>
    let effective := get_effective_max_width max_width envMaxWidth
    let resizedE := match effective with
      | some m => resize_if_needed o shot m format quality
      | none => .ok shot
    match resizedE with
    | .error e => .error e
    | .ok resized =>
      let p : Bytes × String :=
        if format == "jpeg" then
          if is_jpeg resized then (resized, "image/jpeg")
          else
            match convert_png_to_jpeg o resized quality with
            | .ok jpeg => (jpeg, "image/jpeg")
            | .error _ => (resized, "image/png")
        else (resized, "image/png")
      .ok ("data:" ++ p.2 ++ ";base64," ++ o.base64 p.1)

/-- Modelled from the spec: `commands::capture_native_screenshot`
(`commands/mod.rs` is missing from the source tree): applies the
process-wide defaults for format and quality when the call omits them,
runs the pipeline, and renders a pipeline error through the
`ScreenshotError` display strings. -/
def capture_native_screenshot (o : Codec)
    (platformCapture : Except ScreenshotError Bytes)
    (envMaxWidth : Option ℕ) (defaultFormat : String) (defaultQuality : ℕ)
    (format : Option String) (quality : Option ℕ) (max_width : Option ℕ) :
    Except String String :=
  match capture_viewport_screenshot o platformCapture envMaxWidth
      (format.getD defaultFormat) (quality.getD defaultQuality) max_width with
  | .ok url => .ok url
  | .error e => .error e.toMessage

/-! ### Command dispatch (`websocket.rs`)

A `CommandResponse` is a record (its JSON rendering is immediate);
`success_response` and `error_response` are the two helpers of the
source. External collaborator calls made by the handlers are oracle
fields of `Env`; `window.eval` of the generated injection/removal
JavaScript is abstracted as per-window, per-script oracle outcomes
(the generated script text affects only the DOM, never the response).
The process-wide shared state (script registry and IPC monitor) is
threaded explicitly. -/

/-- `CommandResponse`: the JSON object every handler returns. Absent
fields are `none`. -/
structure Resp where
  id : String
  success : Bool
  data : Option Json
  error : Option String
  windowContext : Option WindowContext

/-- `success_response` (websocket.rs). -/
def success_response (id : String) (data : Json) : Resp :=
  ⟨id, true, some data, none, none⟩

/-- `error_response` (websocket.rs). -/
def error_response (id : String) (error : String) : Resp :=
  ⟨id, false, none, some error, none⟩

/-- Result of `commands::resize_window` as consumed by
`handle_resize_window`: a `success` flag, an optional error, and its
JSON serialization (used as the `data` field). -/
structure ResizeResult where
  success : Bool
  error : Option String
  asJson : Json

/-- Oracle outcomes of every external collaborator call the dispatch
handlers make, plus the live window list (enumeration order). -/
structure Env where
  windows : List String
  getWindowInfo : String → Except String Json
  getBackendState : Except String Json
  emitEvent : String → Json → Except String Json
  listWindows : Except String Json
  executeJs : String → String → Except String Json
  resizeWindow : ℕ → ℕ → Option String → Bool → Except String ResizeResult
  codec : Codec
  platformCapture : Except ScreenshotError Bytes
  envMaxWidth : Option ℕ
  defaultFormat : String
  defaultQuality : ℕ
  evalInject : String → ScriptEntry → Except String Unit
  evalRemove : String → String → Except String Unit
  evalClearScripts : String → Except String Unit

/-- The process-wide shared mutable state: script registry and IPC
monitor, one instance each. -/
structure State where
  registry : Registry
  monitor : Monitor

/-- Modelled from the spec: serde serialization of a captured event
(the derive lives in the missing `monitor.rs`); field names follow the
data model of spec section 3, optional fields serialize to `null`. -/
def IPCEvent.toJson (e : IPCEvent) : Json :=
  Json.obj [("timestamp", Json.num e.timestamp),
    ("command", Json.str e.command),
    ("args", e.args),
    ("result", e.result.getD Json.null),
    ("error", (e.error.map Json.str).getD Json.null),
    ("durationMs", (e.durationMs.map Json.num).getD Json.null)]

/-- Serialization of the captured event list returned by
`get_ipc_events`. -/
def eventsToJson (evs : List IPCEvent) : Json :=
  Json.arr (evs.map IPCEvent.toJson)

/-- `handle_invoke_tauri` (websocket.rs): proxies an allow-listed set
of Tauri commands by name; the start/stop monitor branches require some
window to exist and mutate the shared monitor. -/
def handle_invoke_tauri (env : Env) (st : State) (id : String)
    (args : Json) : Resp × State :=
  match (args.get "command").bind Json.asStr with
  | none => (error_response id "Missing command in args", st)
  | some tauriCmd =>
    let window_label := ((args.get "args").bind (fun a => a.get "windowLabel")).bind Json.asStr
    match tauriCmd with
    | "plugin:mcp-bridge|get_window_info" =>
      match resolve_window env.windows window_label with
      | .ok w =>
        match env.getWindowInfo w with
        | .ok d => (success_response id d, st)
        | .error e => (error_response id e, st)
      | .error e => (error_response id e, st)
    | "plugin:mcp-bridge|get_backend_state" =>
      match env.getBackendState with
      | .ok d => (success_response id d, st)
      | .error e => (error_response id e, st)
    | "plugin:mcp-bridge|start_ipc_monitor" =>
      match env.windows.head? with
      | none => (error_response id "No window available", st)
      | some _ =>
        let p := start_ipc_monitor st.monitor
        match p.2 with
        | .ok s => (success_response id (Json.str s), ⟨st.registry, p.1⟩)
        | .error e => (error_response id e, ⟨st.registry, p.1⟩)
    | "plugin:mcp-bridge|stop_ipc_monitor" =>
      match env.windows.head? with
      | none => (error_response id "No window available", st)
      | some _ =>
        let p := stop_ipc_monitor st.monitor
        match p.2 with
        | .ok s => (success_response id (Json.str s), ⟨st.registry, p.1⟩)
        | .error e => (error_response id e, ⟨st.registry, p.1⟩)
    | "plugin:mcp-bridge|get_ipc_events" =>
      match get_ipc_events st.monitor with
      | .ok evs => (success_response id (eventsToJson evs), st)
      | .error e => (error_response id e, st)
    | "plugin:mcp-bridge|emit_event" =>
      match ((args.get "args").bind (fun a => a.get "eventName")).bind Json.asStr with
      | none => (error_response id "Missing eventName in args", st)
      | some eventName =>
        let payload := ((args.get "args").bind (fun a => a.get "payload")).getD Json.null
        match env.emitEvent eventName payload with
        | .ok d => (success_response id d, st)
        | .error e => (error_response id e, st)
    | _ => (error_response id ("Unsupported Tauri command: " ++ tauriCmd), st)

/-- `handle_list_windows` (websocket.rs). -/
def handle_list_windows (env : Env) (id : String) : Resp :=
  match env.listWindows with
  | .ok d => success_response id d
  | .error e => error_response id e

/-- `handle_get_window_info` (websocket.rs): note it reads `windowId`
from the whole request object (`command.args.windowId`). -/
def handle_get_window_info (env : Env) (id : String) (command : Json) : Resp :=
  let window_id := ((command.get "args").bind (fun a => a.get "windowId")).bind Json.asStr
  match resolve_window env.windows window_id with
  | .ok w =>
    match env.getWindowInfo w with
    | .ok d => success_response id d
    | .error e => error_response id e
  | .error e => error_response id e

/-- `handle_execute_js` (websocket.rs): resolves the target with
context, evaluates the script there, and mirrors the inner result's
`success`/`data`/`error` fields, always attaching the resolved
`windowContext`. -/
def handle_execute_js (env : Env) (id : String) (args : Json) : Resp :=
  match (args.get "script").bind Json.asStr with
  | none => error_response id "Missing script argument"
  | some script =>
    let window_label := (args.get "windowLabel").bind Json.asStr
    match resolve_window_with_context env.windows window_label with
    | .ok resolved =>
      match env.executeJs resolved.label script with
      | .ok result =>
        ⟨id, ((result.get "success").bind Json.asBool).getD true,
          result.get "data", (result.get "error").bind Json.asStr,
          some resolved.context⟩
      | .error e => ⟨id, false, none, some e, some resolved.context⟩
    | .error e => error_response id e

/-- `handle_capture_screenshot` (websocket.rs): extracts the optional
format/quality/maxWidth/windowLabel arguments (`as u8` and `as u32`
casts truncate), resolves the target with context, runs the screenshot
pipeline, and attaches the already-resolved `windowContext` to both the
success and the failure response. -/
def handle_capture_screenshot (env : Env) (id : String)
    (args : Option Json) : Resp :=
  let format := (args.bind (fun a => a.get "format")).bind Json.asStr
  let quality := ((args.bind (fun a => a.get "quality")).bind Json.asU64).map (· % 256)
  let max_width := ((args.bind (fun a => a.get "maxWidth")).bind Json.asU64).map (· % 4294967296)
  let window_label := (args.bind (fun a => a.get "windowLabel")).bind Json.asStr
  match resolve_window_with_context env.windows window_label with
  | .ok resolved =>
    match capture_native_screenshot env.codec env.platformCapture
        env.envMaxWidth env.defaultFormat env.defaultQuality
        format quality max_width with
    | .ok data_url => ⟨id, true, some (Json.str data_url), none, some resolved.context⟩
    | .error e => ⟨id, false, none, some e, some resolved.context⟩
  | .error e => error_response id e

/-- `handle_resize_window` (websocket.rs): width and height are
required; the result row carries `success` and `error` of the resize
outcome verbatim. -/
def handle_resize_window (env : Env) (id : String) (args : Json) : Resp :=
  let width := ((args.get "width").bind Json.asU64).map (· % 4294967296)
  let height := ((args.get "height").bind Json.asU64).map (· % 4294967296)
  let window_id := (args.get "windowId").bind Json.asStr
  let logical := ((args.get "logical").bind Json.asBool).getD true
  match width, height with
  | some w, some h =>
    match env.resizeWindow w h window_id logical with
    | .ok result => ⟨id, result.success, some result.asJson, result.error, none⟩
    | .error e => error_response id e
  | _, _ => error_response id "Missing width or height argument"

/-- `inject_script_to_window` (websocket.rs): evaluates the generated
idempotent injection JavaScript (replace any element tagged with the
same id, then append) in the window; the generated text is abstracted
into the `evalInject` oracle, the error prefix is from the source. -/
def inject_script_to_window (env : Env) (label : String)
    (entry : ScriptEntry) : Except String Unit :=
  match env.evalInject label entry with
  | .ok _ => .ok ()
  | .error e => .error ("Failed to inject script: " ++ e)

/-- `inject_script_to_webview` (websocket.rs): resolve a target, inject
there, return the window context for the response. -/
def inject_script_to_webview (env : Env) (entry : ScriptEntry)
    (window_label : Option String) : Except String WindowContext :=
  match resolve_window_with_context env.windows window_label with
  | .error e => .error e
  | .ok resolved =>
    match inject_script_to_window env resolved.label entry with
    | .ok _ => .ok resolved.context
    | .error e => .error e

/-- `remove_script_from_window` (websocket.rs). -/
def remove_script_from_window (env : Env) (label : String)
    (script_id : String) : Except String Unit :=
  match env.evalRemove label script_id with
  | .ok _ => .ok ()
  | .error e => .error ("Failed to remove script: " ++ e)

/-- `remove_script_from_webview` (websocket.rs). -/
def remove_script_from_webview (env : Env) (script_id : String)
    (window_label : Option String) : Except String WindowContext :=
  match resolve_window_with_context env.windows window_label with
  | .error e => .error e
  | .ok resolved =>
    match remove_script_from_window env resolved.label script_id with
    | .ok _ => .ok resolved.context
    | .error e => .error e

/-- `clear_scripts_from_window` (websocket.rs). -/
def clear_scripts_from_window (env : Env) (label : String) :
    Except String Unit :=
  match env.evalClearScripts label with
  | .ok _ => .ok ()
  | .error e => .error ("Failed to clear scripts: " ++ e)

/-- `clear_scripts_from_webview` (websocket.rs). -/
def clear_scripts_from_webview (env : Env)
    (window_label : Option String) : Except String WindowContext :=
  match resolve_window_with_context env.windows window_label with
  | .error e => .error e
  | .ok resolved =>
    match clear_scripts_from_window env resolved.label with
    | .ok _ => .ok resolved.context
    | .error e => .error e

/-- `handle_register_script` (websocket.rs): after argument validation
the registry upsert commits first; a subsequent injection failure
yields a plain `error_response` and the upsert is not rolled back. -/
def handle_register_script (env : Env) (reg : Registry) (id : String)
    (args : Json) : Resp × Registry :=
  match (args.get "id").bind Json.asStr, (args.get "type").bind Json.asStr,
      (args.get "content").bind Json.asStr with
  | some id_str, some type_str, some content_str =>
    let script_type := match type_str with
      | "url" => ScriptType.url
      | _ => ScriptType.inline
    let entry : ScriptEntry := ⟨id_str, script_type, content_str⟩
    let reg2 := reg.add entry
    let window_label := (args.get "windowLabel").bind Json.asStr
    match inject_script_to_webview env entry window_label with
    | .ok ctx =>
      (⟨id, true,
        some (Json.obj [("registered", Json.bool true), ("scriptId", Json.str id_str)]),
        none, some ctx⟩, reg2)
    | .error e => (error_response id e, reg2)
  | _, _, _ => (error_response id "Missing required args: id, type, content", reg)

/-- `handle_remove_script` (websocket.rs): the registry deletion
commits first; a DOM-side removal failure is reported as a qualified
error string while `success` stays true and `data` still reports
whether a registry removal occurred; the deletion is not rolled
back. -/
def handle_remove_script (env : Env) (reg : Registry) (id : String)
    (args : Json) : Resp × Registry :=
  match (args.get "id").bind Json.asStr with
  | none => (error_response id "Missing script id", reg)
  | some script_id =>
    let p := reg.remove script_id
    let removed := p.1.isSome
    let reg2 := p.2
    let window_label := (args.get "windowLabel").bind Json.asStr
    let dataJson := Json.obj [("removed", Json.bool removed),
      ("scriptId", Json.str script_id)]
    match remove_script_from_webview env script_id window_label with
    | .ok ctx => (⟨id, true, some dataJson, none, some ctx⟩, reg2)
    | .error e =>
      (⟨id, true, some dataJson,
        some ("Script removed from registry but DOM removal failed: " ++ e),
        none⟩, reg2)

/-- `handle_clear_scripts` (websocket.rs): empties the registry first
(recording the cleared count); a DOM-side failure is reported as a
qualified error string while `success` stays true; the clear is not
rolled back. Note it reads `windowLabel` from the whole request
object. -/
def handle_clear_scripts (env : Env) (reg : Registry) (id : String)
    (command : Json) : Resp × Registry :=
  let count := reg.len
  let reg2 := reg.clear
  let window_label := ((command.get "args").bind (fun a => a.get "windowLabel")).bind Json.asStr
  let dataJson := Json.obj [("cleared", Json.num count)]
  match clear_scripts_from_webview env window_label with
  | .ok ctx => (⟨id, true, some dataJson, none, some ctx⟩, reg2)
  | .error e =>
    (⟨id, true, some dataJson,
      some ("Scripts cleared from registry but DOM clear failed: " ++ e),
      none⟩, reg2)

/-- `handle_get_scripts` (websocket.rs). -/
def handle_get_scripts (reg : Registry) (id : String) : Resp :=
  let scripts := reg.get_all.map (fun e =>
    Json.obj [("id", Json.str e.id),
      ("type", Json.str (match e.scriptType with
        | ScriptType.inline => "inline"
        | ScriptType.url => "url")),
      ("content", Json.str e.content)])
  ⟨id, true, some (Json.obj [("scripts", Json.arr scripts)]), none, none⟩

/-- The request id a response will carry: the `id` field when it is a
string, the empty string otherwise (`unwrap_or("")` in
`dispatch_command`). -/
def requestKey (command : Json) : String :=
  ((command.get "id").bind Json.asStr).getD ""

/-- `dispatch_command` (websocket.rs): extracts `id` (default `""`) and
`command` (default `"unknown"`), routes to the handler, and returns
exactly one response together with the updated shared state. -/
def dispatch_command (env : Env) (st : State) (command : Json) :
    Resp × State :=
  let id := ((command.get "id").bind Json.asStr).getD ""
  let cmd_name := ((command.get "command").bind Json.asStr).getD "unknown"
  let args := command.get "args"
  match cmd_name with
  | "invoke_tauri" =>
    match args with
    | some a => handle_invoke_tauri env st id a
    | none => (error_response id "Missing args for invoke_tauri", st)
  | "list_windows" => (handle_list_windows env id, st)
  | "get_window_info" => (handle_get_window_info env id command, st)
  | "execute_js" =>
    match args with
    | some a => (handle_execute_js env id a, st)
    | none => (error_response id "Missing args", st)
  | "capture_native_screenshot" => (handle_capture_screenshot env id args, st)
  | "resize_window" =>
    match args with
    | some a => (handle_resize_window env id a, st)
    | none => (error_response id "Missing args for resize_window", st)
  | "register_script" =>
    match args with
    | some a =>
      let p := handle_register_script env st.registry id a
      (p.1, ⟨p.2, st.monitor⟩)
    | none => (error_response id "Missing args for register_script", st)
  | "remove_script" =>
    match args with
    | some a =>
      let p := handle_remove_script env st.registry id a
      (p.1, ⟨p.2, st.monitor⟩)
    | none => (error_response id "Missing args for remove_script", st)
  | "clear_scripts" =>
    let p := handle_clear_scripts env st.registry id command
    (p.1, ⟨p.2, st.monitor⟩)
  | "get_scripts" => (handle_get_scripts st.registry id, st)
  | _ => (error_response id ("Unknown command: " ++ cmd_name), st)

/-! ### The per-connection receive loop (`handle_connection`)

The reader of a connection awaits the full dispatch of one text frame
and enqueues its response on the connection's FIFO response channel
before reading the next frame; the writer drains that channel in
order. The loop is therefore embedded as a sequential fold over the
inbound frames, producing the ordered response sequence of that
connection. A text frame carries its serde parse outcome (`none` for a
frame that is not valid JSON: the source logs and emits nothing). A
close frame or a transport error breaks the loop; other frame kinds
are skipped. -/

/-- One inbound WebSocket frame as seen by `handle_connection`. -/
inductive Frame where
  | text : Option Json → Frame
  | close : Frame
  | ioErr : Frame
  | other : Frame

/-- The receive loop of `handle_connection` (websocket.rs): the ordered
responses enqueued on the connection, and the final shared state. -/
def processConnection (env : Env) (st : State) :
    List Frame → List Resp × State
  | [] => ([], st)
  | .text (some cmd) :: rest =>
    let p := dispatch_command env st cmd
    let q := processConnection env p.2 rest
    (p.1 :: q.1, q.2)
  | .text none :: rest => processConnection env st rest
  | .close :: _ => ([], st)
  | .ioErr :: _ => ([], st)
  | .other :: rest => processConnection env st rest

/-- The injection loop of `inject_all_scripts`: first component records
the injection calls performed in order (the trace), second is the Rust
control-flow outcome (`?` aborts on the first error). -/
def injectLoop (env : Env) (label : String) :
    List ScriptEntry → List ScriptEntry × Except String Unit
  | [] => ([], .ok ())
  | e :: rest =>
    match inject_script_to_window env label e with
    | .error er => ([e], .error er)
    | .ok _ =>
      let p := injectLoop env label rest
      (e :: p.1, p.2)

/-- `inject_all_scripts` (websocket.rs): snapshot the registry, resolve
the target, re-inject every entry in registry order (first failure
aborts), return the snapshot length on success. The first component is
the trace of injection calls performed. -/
def inject_all_scripts (env : Env) (reg : Registry)
    (window_label : Option String) : List ScriptEntry × Except String ℕ :=
  let scripts := reg.get_all
  match resolve_window_with_context env.windows window_label with
  | .error e => ([], .error e)
  | .ok resolved =>
    let p := injectLoop env resolved.label scripts
    match p.2 with
    | .ok _ => (p.1, .ok scripts.length)
    | .error e => (p.1, .error e)

/-! ### Helper lemmas: every handler stamps the extracted request id -/

theorem handle_invoke_tauri_id (env : Env) (st : State) (id : String)
    (args : Json) : (handle_invoke_tauri env st id args).1.id = id := by
  unfold handle_invoke_tauri
  try dsimp only
  repeat' split
  all_goals rfl

theorem handle_list_windows_id (env : Env) (id : String) :
    (handle_list_windows env id).id = id := by
  unfold handle_list_windows
  try dsimp only
  repeat' split
  all_goals rfl

theorem handle_get_window_info_id (env : Env) (id : String) (command : Json) :
    (handle_get_window_info env id command).id = id := by
  unfold handle_get_window_info
  try dsimp only
  repeat' split
  all_goals rfl

theorem handle_execute_js_id (env : Env) (id : String) (args : Json) :
    (handle_execute_js env id args).id = id := by
  unfold handle_execute_js
  try dsimp only
  repeat' split
  all_goals rfl

theorem handle_capture_screenshot_id (env : Env) (id : String)
    (args : Option Json) : (handle_capture_screenshot env id args).id = id := by
  unfold handle_capture_screenshot
  try dsimp only
  repeat' split
  all_goals rfl

theorem handle_resize_window_id (env : Env) (id : String) (args : Json) :
    (handle_resize_window env id args).id = id := by
  unfold handle_resize_window
  try dsimp only
  repeat' split
  all_goals rfl

theorem handle_register_script_id (env : Env) (reg : Registry) (id : String)
    (args : Json) : (handle_register_script env reg id args).1.id = id := by
  unfold handle_register_script
  try dsimp only
  repeat' split
  all_goals rfl

theorem handle_remove_script_id (env : Env) (reg : Registry) (id : String)
    (args : Json) : (handle_remove_script env reg id args).1.id = id := by
  unfold handle_remove_script
  try dsimp only
  repeat' split
  all_goals rfl

theorem handle_clear_scripts_id (env : Env) (reg : Registry) (id : String)
    (command : Json) : (handle_clear_scripts env reg id command).1.id = id := by
  unfold handle_clear_scripts
  try dsimp only
  repeat' split
  all_goals rfl

theorem handle_get_scripts_id (reg : Registry) (id : String) :
    (handle_get_scripts reg id).id = id := rfl

/-- Dispatch always returns exactly one response stamped with the
extracted request id (the `id` field when it is a string, `""`
otherwise). -/
theorem dispatch_command_id (env : Env) (st : State) (command : Json) :
    (dispatch_command env st command).1.id = requestKey command := by
  unfold dispatch_command requestKey
  try dsimp only
  repeat' split
  all_goals
    first
    | rfl
    | simp only [handle_invoke_tauri_id, handle_list_windows_id,
        handle_get_window_info_id, handle_execute_js_id,
        handle_capture_screenshot_id, handle_resize_window_id,
        handle_register_script_id, handle_remove_script_id,
        handle_clear_scripts_id, handle_get_scripts_id]

/-! ### Concrete instances used by witnesses and counterexamples -/

/-- A concrete codec: decoding yields a 100×9 image, encoders emit the
encoded dimensions as bytes, base64 is a fixed token. -/
def codec0 : Codec :=
  ⟨fun _ => .ok ⟨100, 9⟩, fun _ => .ok ⟨100, 9⟩,
    fun i => .ok [i.width, i.height], fun i _ => .ok [i.width, i.height],
    fun _ => "B64"⟩

/-- A concrete codec decoding to a 4000×3000 image, encoders emitting
the encoded dimensions as bytes. -/
def codec1 : Codec :=
  ⟨fun _ => .ok ⟨4000, 3000⟩, fun _ => .ok ⟨4000, 3000⟩,
    fun i => .ok [i.width, i.height], fun i _ => .ok [i.width, i.height],
    fun _ => "B64"⟩

/-- A concrete environment: one window `"main"`, every collaborator
call succeeds trivially. -/
def env0 : Env :=
  ⟨["main"], fun _ => .ok Json.null, .ok Json.null, fun _ _ => .ok Json.null,
    .ok Json.null, fun _ _ => .ok Json.null, fun _ _ _ _ => .ok ⟨true, none, Json.null⟩,
    codec0, .ok [137, 80], none, "png", 85,
    fun _ _ => .ok (), fun _ _ => .ok (), fun _ => .ok ()⟩

/-- The initial shared state: empty registry, stopped monitor with no
events. -/
def st0 : State := ⟨[], ⟨false, []⟩⟩

/-! ### Claims about the connection loop and dispatch -/

/-- Claim C1: on one connection, requests are dispatched strictly
sequentially (the receive loop awaits the full dispatch and enqueues
the response before reading the next frame), so for every sequence of
JSON-parseable requests the sequence of response `id`s equals the
sequence of request `id`s in the order the requests were read. -/
theorem c1_response_ids_match_request_order (env : Env) (st : State)
    (reqs : List Json) :
    (processConnection env st (reqs.map (fun r => Frame.text (some r)))).1.map Resp.id
      = reqs.map requestKey := by
  induction reqs generalizing st with
  | nil => rfl
  | cons r rest ih =>
    simp [processConnection, dispatch_command_id, ih]

/-- Claim C5: an inbound text frame that fails to parse as JSON
produces no response at all and leaves the connection loop (and the
shared state) exactly as it was, and a subsequent valid request on the
same connection is still dispatched and answered normally. -/
theorem c5_invalid_frame_dropped_connection_survives (env : Env)
    (st : State) (frames : List Frame) :
    processConnection env st (Frame.text none :: frames) =
        processConnection env st frames
      ∧ ∀ (req : Json) (rest : List Frame),
          (processConnection env st
              (Frame.text none :: Frame.text (some req) :: rest)).1 =
            (dispatch_command env st req).1 ::
              (processConnection env (dispatch_command env st req).2 rest).1 := by
  exact ⟨rfl, fun req rest => rfl⟩

/-- Claim C10: a parsed request whose `id` field is absent or not a
string still gets exactly one response (dispatch, by type, returns one
response per request), with `id` equal to the empty string; and a
parsed request whose `command` field is absent or not a string falls
through to the unknown-command branch, which names the command as
`unknown`. -/
theorem c10_defaulted_id_and_unknown_command (env : Env) (st : State)
    (req : Json) :
    ((req.get "id").bind Json.asStr = none →
        (dispatch_command env st req).1.id = "")
      ∧ ((req.get "command").bind Json.asStr = none →
          dispatch_command env st req =
            (error_response (requestKey req) "Unknown command: unknown", st)) := by
  constructor
  · intro h
    rw [dispatch_command_id]
    unfold requestKey
    rw [h]
    rfl
  · intro h
    unfold dispatch_command
    rw [h]
    rfl

/-- Witness for C10 at the concrete request `{}`. -/
theorem c10_defaulted_id_and_unknown_command_witness :
    ((Json.obj []).get "id").bind Json.asStr = none
      ∧ (dispatch_command env0 st0 (Json.obj [])).1.id = ""
      ∧ dispatch_command env0 st0 (Json.obj []) =
          (error_response "" "Unknown command: unknown", st0) :=
  ⟨rfl, (c10_defaulted_id_and_unknown_command env0 st0 (Json.obj [])).1 rfl,
    (c10_defaulted_id_and_unknown_command env0 st0 (Json.obj [])).2 rfl⟩

/-! ### Claim C2: the five-branch window resolution policy -/

/-- Claim C2: window resolution follows the five-branch policy — a
given matching label is selected with `warning` absent; a given label
with no match fails with the target-not-found error; no label with
exactly one target selects it silently; no label with several targets
selects one and sets `warning` describing the ambiguity among the
candidates; no label with zero targets fails with the no-targets
error; and `totalWindows` equals the live target count in every
branch. -/
theorem c2_window_resolution_policy (ws : List String) (l : String) :
    (l ∈ ws → resolve_window_with_context ws (some l) =
        .ok ⟨l, ⟨l, ws.length, none⟩⟩)
  ∧ (l ∉ ws → resolve_window_with_context ws (some l) =
        .error ("Window not found: " ++ l))
  ∧ (resolve_window_with_context [] none = .error "No windows available")
  ∧ (∀ w, resolve_window_with_context [w] none = .ok ⟨w, ⟨w, 1, none⟩⟩)
  ∧ (∀ w w2 rest, resolve_window_with_context (w :: w2 :: rest) none =
      .ok ⟨w, ⟨w, (w :: w2 :: rest).length,
        some ("Multiple windows (" ++ toString (w :: w2 :: rest).length ++
          ") available; using window " ++ w)⟩⟩) := by
  refine ⟨?_, ?_, rfl, fun w => rfl, fun w w2 rest => rfl⟩
  · intro h
    unfold resolve_window_with_context
    simp [h]
  · intro h
    unfold resolve_window_with_context
    simp [h]

/-- Witness for C2: all five branches at concrete window lists. -/
theorem c2_window_resolution_policy_witness :
    resolve_window_with_context ["main", "aux"] (some "main") =
        .ok ⟨"main", ⟨"main", 2, none⟩⟩
  ∧ resolve_window_with_context ["main", "aux"] (some "nope") =
        .error "Window not found: nope"
  ∧ resolve_window_with_context [] none = .error "No windows available"
  ∧ resolve_window_with_context ["solo"] none = .ok ⟨"solo", ⟨"solo", 1, none⟩⟩
  ∧ resolve_window_with_context ["a", "b"] none =
        .ok ⟨"a", ⟨"a", 2, some "Multiple windows (2) available; using window a"⟩⟩ :=
  ⟨(c2_window_resolution_policy ["main", "aux"] "main").1 (by decide),
    (c2_window_resolution_policy ["main", "aux"] "nope").2.1 (by decide),
    (c2_window_resolution_policy [] "x").2.2.1,
    (c2_window_resolution_policy [] "x").2.2.2.1 "solo",
    (c2_window_resolution_policy [] "x").2.2.2.2 "a" "b" []⟩

/-! ### Claims C3 and C4: the IPC monitor -/

/-- Claim C3: reporting an invocation whose command name matches one of
the monitor's own control command names returns success without
appending anything, in every monitor state, so such an event never
shows up in the sequence `query` returns. -/
theorem c3_monitor_self_filter (m : Monitor) (now : ℚ) (args : Json)
    (result : Option Json) (er : Option String) (dur : Option ℚ)
    (c : String)
    (h : c ∈ ["report_ipc_event", "start_ipc_monitor",
      "stop_ipc_monitor", "get_ipc_events"]) :
    report_ipc_event now m c args result er dur = (m, .ok ())
      ∧ get_ipc_events (report_ipc_event now m c args result er dur).1 =
          get_ipc_events m := by
  have hc : (containsSubstr c "report_ipc_event"
      || containsSubstr c "start_ipc_monitor"
      || containsSubstr c "stop_ipc_monitor"
      || containsSubstr c "get_ipc_events") = true := by
    fin_cases h <;> decide
  refine ⟨?_, ?_⟩ <;> simp [report_ipc_event, hc]

/-- Witness for C3: a `start_ipc_monitor` report while monitoring never
reaches the captured-event sequence. -/
theorem c3_monitor_self_filter_witness :
    report_ipc_event 7 ⟨true, []⟩ "start_ipc_monitor" Json.null none none none =
        (⟨true, []⟩, .ok ())
      ∧ get_ipc_events
          (report_ipc_event 7 ⟨true, []⟩ "start_ipc_monitor" Json.null none none none).1 =
          get_ipc_events ⟨true, []⟩ :=
  c3_monitor_self_filter ⟨true, []⟩ 7 Json.null none none none
    "start_ipc_monitor" (by decide)

/-- Claim C4: in any state, `start` clears the captured events and
enables the monitor, `stop` disables it while retaining the events,
`query` returns the full retained sequence regardless of state, and
recording appends exactly one event while enabled and is a non-error
no-op while stopped. -/
theorem c4_monitor_lifecycle (en : Bool) (evs : List IPCEvent)
    (e : IPCEvent) (m : Monitor) :
    Monitor.start ⟨en, evs⟩ = ⟨true, []⟩
  ∧ Monitor.stop ⟨en, evs⟩ = ⟨false, evs⟩
  ∧ get_ipc_events ⟨en, evs⟩ = .ok evs
  ∧ Monitor.addEvent ⟨true, evs⟩ e = ⟨true, evs ++ [e]⟩
  ∧ Monitor.addEvent ⟨false, evs⟩ e = ⟨false, evs⟩
  ∧ start_ipc_monitor m = (⟨true, []⟩, .ok "IPC monitoring started")
  ∧ stop_ipc_monitor m = (⟨false, m.events⟩, .ok "IPC monitoring stopped")
  ∧ (∀ (now : ℚ) (c : String) (args : Json) (res : Option Json)
        (er : Option String) (dur : Option ℚ),
      (report_ipc_event now ⟨false, evs⟩ c args res er dur).2 = .ok ()
        ∧ (report_ipc_event now ⟨false, evs⟩ c args res er dur).1 = ⟨false, evs⟩) := by
  refine ⟨rfl, rfl, rfl, ?_, ?_, rfl, rfl, ?_⟩
  · simp [Monitor.addEvent]
  · simp [Monitor.addEvent]
  · intro now c args res er dur
    unfold report_ipc_event
    split
    · exact ⟨rfl, rfl⟩
    · exact ⟨rfl, by simp [Monitor.addEvent]⟩

/-! ### Claim C6: the resize geometry -/

/-- When the rounded target height does not undershoot the exact aspect
ratio (`maxW / w ≤ round(h·maxW / w) / h`, stated by
cross-multiplication), `DynamicImage::resize` to the box
`(maxW, round(h·maxW / w))` yields exactly those dimensions. -/
theorem resize_dimensions_exact (w h maxW : ℕ) (hm : 0 < maxW)
    (hw : maxW < w) (hh : 0 < h) (hwle : w ≤ U32MAX) (hhle : h ≤ U32MAX)
    (hround : maxW * h ≤ roundDiv (h * maxW) w * w) :
    resize_dimensions w h maxW (roundDiv (h * maxW) w) =
      (maxW, roundDiv (h * maxW) w) := by
  have hw0 : 0 < w := Nat.lt_of_le_of_lt (Nat.zero_le maxW) hw
  have huse : decide (maxW * h ≤ roundDiv (h * maxW) w * w) = true :=
    decide_eq_true hround
  have hnwv : roundDiv (w * maxW) w = maxW := by
    unfold roundDiv
    have e1 : 2 * (w * maxW) + w = w * (2 * maxW + 1) := by ring
    have e2 : 2 * w = w * 2 := by ring
    rw [e1, e2, Nat.mul_div_mul_left _ _ hw0]
    omega
  have hnh1 : 1 ≤ roundDiv (h * maxW) w := by
    by_contra hcon
    have h0 : roundDiv (h * maxW) w = 0 := by omega
    rw [h0, Nat.zero_mul] at hround
    have := Nat.mul_pos hm hh
    omega
  have hnhh : roundDiv (h * maxW) w ≤ h := by
    have h2w : 0 < 2 * w := by omega
    have hlt : 2 * (h * maxW) + w < (h + 1) * (2 * w) := by
      have hle : h * maxW ≤ h * w := Nat.mul_le_mul_left h (le_of_lt hw)
      nlinarith
    have := (Nat.div_lt_iff_lt_mul h2w).mpr hlt
    unfold roundDiv
    omega
  unfold resize_dimensions
  simp only [huse, if_true, hnwv]
  have hm1 : max maxW 1 = maxW := Nat.max_eq_left hm
  have hn1 : max (roundDiv (h * maxW) w) 1 = roundDiv (h * maxW) w :=
    Nat.max_eq_left hnh1
  rw [hm1, hn1]
  have c1 : ¬ U32MAX < maxW := by omega
  have c2 : ¬ U32MAX < roundDiv (h * maxW) w := by omega
  rw [if_neg c1, if_neg c2]

/-- Counterexample to claim C6: a decodable 100×9 image with
`maxWidth = 25`. The claim predicts output width exactly 25 and height
`round(9·25/100) = 2`, but `DynamicImage::resize` fits the image within
the box `(25, 2)` preserving aspect ratio, and since `2/9 < 25/100` the
output is 22×2 (the encoder of `codec0` writes the encoded dimensions
as the output bytes). -/
theorem c6_resize_width_counterexample :
    codec0.decode [0] = .ok ⟨100, 9⟩
  ∧ roundDiv (9 * 25) 100 = 2
  ∧ resize_if_needed codec0 [0] 25 "png" 85 = .ok [22, 2]
  ∧ (22 : ℕ) ≠ 25 :=
  ⟨rfl, by decide, rfl, by decide⟩

/-- Claim C6 (amended): with an effective `maxWidth` set and a
decodable image, if the width does not exceed `maxWidth` the original
bytes pass through unchanged (never upscale); if the width exceeds
`maxWidth` and the rounded height `round(h·maxW/w)` does not undershoot
the exact aspect ratio, the resized image has width exactly `maxWidth`
and height `round(h·maxW/w)`, and the result is that image re-encoded
in the requested format (when rounding undershoots, the fit-within
geometry of `DynamicImage::resize` makes the width smaller than
`maxWidth`, as in the counterexample). -/
theorem c6_resize_pipeline_amended (o : Codec) (data : Bytes) (img : Img)
    (maxW quality : ℕ) (format : String)
    (hdec : o.decode data = .ok img) :
    (img.width ≤ maxW → resize_if_needed o data maxW format quality = .ok data)
  ∧ (maxW < img.width → 0 < maxW → 0 < img.height →
      img.width ≤ U32MAX → img.height ≤ U32MAX →
      maxW * img.height ≤ roundDiv (img.height * maxW) img.width * img.width →
      dynResize img maxW (roundDiv (img.height * maxW) img.width) =
          ⟨maxW, roundDiv (img.height * maxW) img.width⟩
        ∧ resize_if_needed o data maxW format quality =
            (if format == "jpeg" then
              match o.encodeJpeg ⟨maxW, roundDiv (img.height * maxW) img.width⟩ quality with
              | .ok buf => .ok buf
              | .error e => .error (.resizeFailed ("Failed to encode JPEG: " ++ e))
            else
              match o.encodePng ⟨maxW, roundDiv (img.height * maxW) img.width⟩ with
              | .ok buf => .ok buf
              | .error e => .error (.resizeFailed ("Failed to encode PNG: " ++ e)))) := by
  constructor
  · intro hle
    unfold resize_if_needed
    rw [hdec]
    simp [hle]
  · intro h1 h2 h3 h4 h5 h6
    have hex := resize_dimensions_exact img.width img.height maxW h2 h1 h3 h4 h5 h6
    have hdyn : dynResize img maxW (roundDiv (img.height * maxW) img.width) =
        ⟨maxW, roundDiv (img.height * maxW) img.width⟩ := by
      unfold dynResize
      rw [hex]
    refine ⟨hdyn, ?_⟩
    unfold resize_if_needed
    rw [hdec]
    have hnle : ¬ img.width ≤ maxW := by omega
    simp only [hnle, if_false, hdyn]

/-- Witness for C6 (amended): a 4000×3000 image with `maxWidth = 1000`
resizes to exactly 1000×750; with `maxWidth = 5000` the bytes pass
through unchanged. -/
theorem c6_resize_pipeline_amended_witness :
    resize_if_needed codec1 [7] 1000 "png" 80 = .ok [1000, 750]
  ∧ roundDiv (3000 * 1000) 4000 = 750
  ∧ resize_if_needed codec1 [7] 5000 "png" 80 = .ok [7] := by
  have h := (c6_resize_pipeline_amended codec1 [7] ⟨4000, 3000⟩ 1000 80 "png" rfl).2
    (by decide) (by decide) (by decide) (by decide) (by decide) (by decide)
  have h2 := (c6_resize_pipeline_amended codec1 [7] ⟨4000, 3000⟩ 5000 80 "png" rfl).1
    (by decide)
  refine ⟨?_, by decide, h2⟩
  rw [h.2]
  rfl

/-! ### Claim C7: registry mutations vs DOM side effects -/

/-- An environment in which every `window.eval` collaborator call
fails with `boom`. -/
def env7 : Env :=
  ⟨["main"], fun _ => .ok Json.null, .ok Json.null, fun _ _ => .ok Json.null,
    .ok Json.null, fun _ _ => .ok Json.null, fun _ _ _ _ => .ok ⟨true, none, Json.null⟩,
    codec0, .ok [137, 80], none, "png", 85,
    fun _ _ => .error "boom", fun _ _ => .error "boom", fun _ => .error "boom"⟩

/-- A valid `register_script` argument object. -/
def registerArgs : Json :=
  Json.obj [("id", Json.str "s1"), ("type", Json.str "inline"),
    ("content", Json.str "x")]

/-- Counterexample to claim C7: for `register_script`, when the
registry upsert has committed and the DOM injection then fails, the
response is a plain error response — `success` is `false` and the
primary data fields are absent, not a success report of the registry
mutation — while the upsert is indeed kept. -/
theorem c7_register_error_counterexample :
    handle_register_script env7 [] "r1" registerArgs =
      (error_response "r1" "Failed to inject script: boom",
        [⟨"s1", ScriptType.inline, "x"⟩])
  ∧ (error_response "r1" "Failed to inject script: boom").success = false
  ∧ (error_response "r1" "Failed to inject script: boom").data = none :=
  ⟨rfl, rfl, rfl⟩

/-- Claim C7 (amended): `remove_script` and `clear_scripts` behave as
claimed — after the registry mutation commits, a DOM-side failure keeps
`success = true`, keeps the primary data fields reporting the registry
mutation, carries a qualified error string, and the mutation is not
rolled back; `remove_script` reports with no error whether a removal
occurred when the DOM step succeeds, also for an absent id.
`register_script` differs from the claim: a DOM injection failure after
the committed upsert yields a plain error response (`success = false`,
no data), though the upsert is likewise not rolled back. -/
theorem c7_side_effect_errors_amended (env : Env) (reg : Registry)
    (id : String) (args : Json) :
    (∀ sid resolved er,
      (args.get "id").bind Json.asStr = some sid →
      resolve_window_with_context env.windows
          ((args.get "windowLabel").bind Json.asStr) = .ok resolved →
      env.evalRemove resolved.label sid = .error er →
      handle_remove_script env reg id args =
        (⟨id, true,
          some (Json.obj [("removed", Json.bool (reg.remove sid).1.isSome),
            ("scriptId", Json.str sid)]),
          some ("Script removed from registry but DOM removal failed: Failed to remove script: "
            ++ er),
          none⟩, (reg.remove sid).2))
  ∧ (∀ sid resolved,
      (args.get "id").bind Json.asStr = some sid →
      resolve_window_with_context env.windows
          ((args.get "windowLabel").bind Json.asStr) = .ok resolved →
      env.evalRemove resolved.label sid = .ok () →
      handle_remove_script env reg id args =
        (⟨id, true,
          some (Json.obj [("removed", Json.bool (reg.remove sid).1.isSome),
            ("scriptId", Json.str sid)]),
          none, some resolved.context⟩, (reg.remove sid).2))
  ∧ (∀ resolved er command,
      resolve_window_with_context env.windows
          (((command.get "args").bind (fun a => a.get "windowLabel")).bind Json.asStr) =
            .ok resolved →
      env.evalClearScripts resolved.label = .error er →
      handle_clear_scripts env reg id command =
        (⟨id, true, some (Json.obj [("cleared", Json.num (reg.len : ℚ))]),
          some ("Scripts cleared from registry but DOM clear failed: Failed to clear scripts: "
            ++ er),
          none⟩, []))
  ∧ (∀ sid ty ct resolved er,
      (args.get "id").bind Json.asStr = some sid →
      (args.get "type").bind Json.asStr = some ty →
      (args.get "content").bind Json.asStr = some ct →
      resolve_window_with_context env.windows
          ((args.get "windowLabel").bind Json.asStr) = .ok resolved →
      env.evalInject resolved.label
          ⟨sid, (match ty with | "url" => ScriptType.url | _ => ScriptType.inline), ct⟩ =
            .error er →
      handle_register_script env reg id args =
        (error_response id ("Failed to inject script: " ++ er),
          reg.add ⟨sid,
            (match ty with | "url" => ScriptType.url | _ => ScriptType.inline), ct⟩)) := by
  refine ⟨?_, ?_, ?_, ?_⟩
  · intro sid resolved er h1 h2 h3
    unfold handle_remove_script remove_script_from_webview remove_script_from_window
    rw [h1]
    dsimp only
    rw [h2]
    dsimp only
    rw [h3]
    rfl
  · intro sid resolved h1 h2 h3
    unfold handle_remove_script remove_script_from_webview remove_script_from_window
    rw [h1]
    dsimp only
    rw [h2]
    dsimp only
    rw [h3]
  · intro resolved er command h1 h2
    unfold handle_clear_scripts clear_scripts_from_webview clear_scripts_from_window
    dsimp only
    rw [h1]
    dsimp only
    rw [h2]
    rfl
  · intro sid ty ct resolved er h1 h2 h3 h4 h5
    unfold handle_register_script inject_script_to_webview inject_script_to_window
    rw [h1, h2, h3]
    dsimp only
    rw [h4]
    dsimp only
    rw [h5]

/-- Witness for C7 (amended): all four parts at concrete inputs — a
one-entry registry, DOM failures from `env7`, DOM successes from
`env0`. -/
theorem c7_side_effect_errors_amended_witness :
    handle_remove_script env7 [⟨"s1", ScriptType.inline, "x"⟩] "r2"
        (Json.obj [("id", Json.str "s1")]) =
      (⟨"r2", true,
        some (Json.obj [("removed", Json.bool true), ("scriptId", Json.str "s1")]),
        some "Script removed from registry but DOM removal failed: Failed to remove script: boom",
        none⟩, [])
  ∧ handle_remove_script env0 [] "r3" (Json.obj [("id", Json.str "zz")]) =
      (⟨"r3", true,
        some (Json.obj [("removed", Json.bool false), ("scriptId", Json.str "zz")]),
        none, some ⟨"main", 1, none⟩⟩, [])
  ∧ handle_clear_scripts env7 [⟨"s1", ScriptType.inline, "x"⟩] "r4" (Json.obj []) =
      (⟨"r4", true, some (Json.obj [("cleared", Json.num 1)]),
        some "Scripts cleared from registry but DOM clear failed: Failed to clear scripts: boom",
        none⟩, [])
  ∧ handle_register_script env7 [] "r5" registerArgs =
      (error_response "r5" "Failed to inject script: boom",
        [⟨"s1", ScriptType.inline, "x"⟩]) := by
  refine ⟨?_, ?_, ?_, ?_⟩
  · exact ((c7_side_effect_errors_amended env7 [⟨"s1", ScriptType.inline, "x"⟩] "r2"
      (Json.obj [("id", Json.str "s1")])).1 "s1" ⟨"main", ⟨"main", 1, none⟩⟩ "boom"
      rfl rfl rfl).trans rfl
  · exact ((c7_side_effect_errors_amended env0 [] "r3"
      (Json.obj [("id", Json.str "zz")])).2.1 "zz" ⟨"main", ⟨"main", 1, none⟩⟩
      rfl rfl rfl).trans rfl
  · exact ((c7_side_effect_errors_amended env7 [⟨"s1", ScriptType.inline, "x"⟩] "r4"
      registerArgs).2.2.1 ⟨"main", ⟨"main", 1, none⟩⟩ "boom" (Json.obj [])
      rfl rfl).trans rfl
  · exact ((c7_side_effect_errors_amended env7 [] "r5"
      registerArgs).2.2.2 "s1" "inline" "x" ⟨"main", ⟨"main", 1, none⟩⟩ "boom"
      rfl rfl rfl rfl rfl).trans rfl

/-! ### Claim C8: screenshot pipeline failures in the command response -/

/-- A codec whose JPEG encoder always fails. -/
def codec8 : Codec :=
  ⟨fun _ => .ok ⟨10, 10⟩, fun _ => .ok ⟨10, 10⟩,
    fun i => .ok [i.width, i.height], fun _ _ => .error "boom",
    fun _ => "B64"⟩

/-- An environment carrying `codec8`; platform capture yields PNG-magic
bytes. -/
def env8 : Env :=
  ⟨["main"], fun _ => .ok Json.null, .ok Json.null, fun _ _ => .ok Json.null,
    .ok Json.null, fun _ _ => .ok Json.null, fun _ _ _ _ => .ok ⟨true, none, Json.null⟩,
    codec8, .ok [137, 80], none, "png", 85,
    fun _ _ => .ok (), fun _ _ => .ok (), fun _ => .ok ()⟩

/-- An environment whose platform capture fails with a timeout. -/
def env8f : Env :=
  ⟨["main"], fun _ => .ok Json.null, .ok Json.null, fun _ _ => .ok Json.null,
    .ok Json.null, fun _ _ => .ok Json.null, fun _ _ _ _ => .ok ⟨true, none, Json.null⟩,
    codec0, .error .timeout, none, "png", 85,
    fun _ _ => .ok (), fun _ _ => .ok (), fun _ => .ok ()⟩

/-- Counterexample to claim C8: an encode failure in the final PNG→JPEG
conversion step is swallowed — the pipeline falls back to the PNG bytes
and the command reports success, not `{success:false, error}`. -/
theorem c8_encode_fallback_counterexample :
    convert_png_to_jpeg codec8 [137, 80] 85 =
        .error (.encodeFailed "Failed to encode JPEG: boom")
  ∧ capture_viewport_screenshot codec8 (.ok [137, 80]) none "jpeg" 85 none =
        .ok "data:image/png;base64,B64"
  ∧ handle_capture_screenshot env8 "c8"
        (some (Json.obj [("format", Json.str "jpeg")])) =
        ⟨"c8", true, some (Json.str "data:image/png;base64,B64"), none,
          some ⟨"main", 1, none⟩⟩ :=
  ⟨rfl, rfl, rfl⟩

/-- Claim C8 (amended): every failure the pipeline reports (platform
capture, decode, or the resize-stage encode) makes
`capture_native_screenshot` return `{success:false, error}` carrying
the already-resolved `windowContext`; an encode failure in the final
PNG→JPEG conversion step, however, is swallowed by a fallback to the
PNG bytes (see the counterexample). -/
theorem c8_pipeline_error_response_amended (env : Env) (id : String)
    (args : Option Json) (resolved : ResolvedWindow) (e : String)
    (hres : resolve_window_with_context env.windows
        ((args.bind (fun a => a.get "windowLabel")).bind Json.asStr) = .ok resolved)
    (hcap : capture_native_screenshot env.codec env.platformCapture env.envMaxWidth
        env.defaultFormat env.defaultQuality
        ((args.bind (fun a => a.get "format")).bind Json.asStr)
        (((args.bind (fun a => a.get "quality")).bind Json.asU64).map (· % 256))
        (((args.bind (fun a => a.get "maxWidth")).bind Json.asU64).map (· % 4294967296)) =
        .error e) :
    handle_capture_screenshot env id args =
      ⟨id, false, none, some e, some resolved.context⟩ := by
  unfold handle_capture_screenshot
  dsimp only
  rw [hres]
  dsimp only
  rw [hcap]

/-- Witness for C8 (amended): a timeout of the platform capture
surfaces as `{success:false, error:"Timeout exceeded"}` with the
resolved window context. -/
theorem c8_pipeline_error_response_amended_witness :
    handle_capture_screenshot env8f "c8w" none =
      ⟨"c8w", false, none, some "Timeout exceeded", some ⟨"main", 1, none⟩⟩ :=
  c8_pipeline_error_response_amended env8f "c8w" none
    ⟨"main", ⟨"main", 1, none⟩⟩ "Timeout exceeded" rfl rfl

/-! ### Claim C9: replay of all registered scripts -/

theorem injectLoop_all_ok (env : Env) (label : String)
    (l : List ScriptEntry)
    (h : ∀ x ∈ l, env.evalInject label x = .ok ()) :
    injectLoop env label l = (l, .ok ()) := by
  induction l with
  | nil => rfl
  | cons e rest ih =>
    unfold injectLoop inject_script_to_window
    rw [h e (List.mem_cons_self e rest)]
    dsimp only
    rw [ih (fun x hx => h x (List.mem_cons_of_mem e hx))]

theorem injectLoop_first_error (env : Env) (label : String)
    (pre : List ScriptEntry) (e : ScriptEntry) (post : List ScriptEntry)
    (er : String)
    (hpre : ∀ x ∈ pre, env.evalInject label x = .ok ())
    (he : env.evalInject label e = .error er) :
    injectLoop env label (pre ++ e :: post) =
      (pre ++ [e], .error ("Failed to inject script: " ++ er)) := by
  induction pre with
  | nil =>
    unfold injectLoop inject_script_to_window
    dsimp only [List.nil_append]
    rw [he]
  | cons x rest ih =>
    unfold injectLoop inject_script_to_window
    dsimp only [List.cons_append]
    rw [hpre x (List.mem_cons_self x rest)]
    dsimp only
    rw [ih (fun y hy => hpre y (List.mem_cons_of_mem x hy))]

/-- Claim C9: `inject_all_scripts` re-injects every registered entry in
registry order into the resolved target; when every injection succeeds
it returns the number of entries injected, and a failure partway aborts
the remaining injections (the trace stops at the failing entry) and
surfaces the first error. -/
theorem c9_replay_all_in_order (env : Env) (reg : Registry)
    (wl : Option String) (resolved : ResolvedWindow)
    (hres : resolve_window_with_context env.windows wl = .ok resolved) :
    ((∀ x ∈ reg.get_all, env.evalInject resolved.label x = .ok ()) →
      inject_all_scripts env reg wl = (reg.get_all, .ok reg.get_all.length))
  ∧ (∀ pre e post er, reg.get_all = pre ++ e :: post →
      (∀ x ∈ pre, env.evalInject resolved.label x = .ok ()) →
      env.evalInject resolved.label e = .error er →
      inject_all_scripts env reg wl =
        (pre ++ [e], .error ("Failed to inject script: " ++ er))) := by
  constructor
  · intro h
    unfold inject_all_scripts
    rw [hres]
    dsimp only
    rw [injectLoop_all_ok env resolved.label reg.get_all h]
  · intro pre e post er hsplit hpre he
    unfold inject_all_scripts
    rw [hres]
    dsimp only
    rw [hsplit, injectLoop_first_error env resolved.label pre e post er hpre he]

/-- An environment whose injection oracle fails exactly on the entry
with id `bad`. -/
def env9 : Env :=
  ⟨["main"], fun _ => .ok Json.null, .ok Json.null, fun _ _ => .ok Json.null,
    .ok Json.null, fun _ _ => .ok Json.null, fun _ _ _ _ => .ok ⟨true, none, Json.null⟩,
    codec0, .ok [137, 80], none, "png", 85,
    fun _ e => if e.id == "bad" then .error "x" else .ok (),
    fun _ _ => .ok (), fun _ => .ok ()⟩

/-- Witness for C9: full success over a two-entry registry returns the
count 2; the same registry with a failing second entry aborts there and
returns its error. -/
theorem c9_replay_all_in_order_witness :
    inject_all_scripts env9 [⟨"a", ScriptType.inline, "1"⟩, ⟨"b", ScriptType.url, "2"⟩] none =
      ([⟨"a", ScriptType.inline, "1"⟩, ⟨"b", ScriptType.url, "2"⟩], .ok 2)
  ∧ inject_all_scripts env9 [⟨"a", ScriptType.inline, "1"⟩, ⟨"bad", ScriptType.inline, "2"⟩,
        ⟨"c", ScriptType.inline, "3"⟩] none =
      ([⟨"a", ScriptType.inline, "1"⟩, ⟨"bad", ScriptType.inline, "2"⟩],
        .error "Failed to inject script: x") := by
  constructor
  · exact (c9_replay_all_in_order env9
      [⟨"a", ScriptType.inline, "1"⟩, ⟨"b", ScriptType.url, "2"⟩] none
      ⟨"main", ⟨"main", 1, none⟩⟩ rfl).1 (by intro x hx; fin_cases hx <;> rfl)
  · exact (c9_replay_all_in_order env9
      [⟨"a", ScriptType.inline, "1"⟩, ⟨"bad", ScriptType.inline, "2"⟩,
        ⟨"c", ScriptType.inline, "3"⟩] none
      ⟨"main", ⟨"main", 1, none⟩⟩ rfl).2
      [⟨"a", ScriptType.inline, "1"⟩] ⟨"bad", ScriptType.inline, "2"⟩
      [⟨"c", ScriptType.inline, "3"⟩] "x" rfl
      (by intro x hx; fin_cases hx; rfl) rfl

end McpBridge
